import Mathlib

/-!
Shallow embedding of the "Would You Rather" poll backend (server.js and the
unnamed variant part_000) and proofs about its vote-and-percentage state
machine, flagging transition, and request validation.

JS `number` arithmetic on vote counts and percentages is modelled as exact
rational arithmetic; strings are modelled over their character sequences
(ASCII-faithful `trim`, `toLowerCase`, `toUpperCase`, `parseInt`).
-/

/-- Model of JavaScript `Math.round`: rounds to the nearest integer,
ties toward positive infinity (`Math.round(x) = floor(x + 1/2)`). -/
def jsRound (q : ℚ) : ℤ := ⌊q + 1 / 2⌋

/-- `calculateVotePercentages` from part_000 (lines 11-19): if the total is
zero return `(0, 0)`; otherwise round option A's share of 100 and give
option B the remainder `100 - percentageA`. -/
def calculateVotePercentages (votesA votesB : ℕ) : ℤ × ℤ :=
  let totalVotes := votesA + votesB
  if totalVotes = 0 then (0, 0)
  else
    let percentageA := jsRound ((votesA : ℚ) / (totalVotes : ℚ) * 100)
    let percentageB := 100 - percentageA
    (percentageA, percentageB)

/-- The inline percentage computation of server.js (appearing in the
question handler, lines 161-173, and again in the vote handler, lines
217-230): round both shares independently, then, when the total is positive
and the two rounded values do not sum to 100, overwrite option B's
percentage with `100 - pctA`. -/
def serverPercentages (votesA votesB : ℕ) : ℤ × ℤ :=
  let totalVotes := votesA + votesB
  let pctA : ℤ := if totalVotes = 0 then 0 else jsRound ((votesA : ℚ) / (totalVotes : ℚ) * 100)
  let pctB : ℤ := if totalVotes = 0 then 0 else jsRound ((votesB : ℚ) / (totalVotes : ℚ) * 100)
  if 0 < totalVotes ∧ pctA + pctB ≠ 100 then (pctA, 100 - pctA) else (pctA, pctB)

/-! ## String helpers: models of the JavaScript string primitives used by
the handlers (`trim`, `toLowerCase`, `toUpperCase`, `parseInt`), faithful
on the ASCII fragment the endpoints deal in. -/

/-- Whitespace recognized by JS `String.prototype.trim` and `parseInt`
(the common ASCII whitespace characters plus no-break space). -/
def isJsWhitespace (c : Char) : Bool :=
  c = ' ' ∨ c = '\t' ∨ c = '\n' ∨ c = '\r' ∨ c = '\x0b' ∨ c = '\x0c' ∨ c = '\xa0'

/-- Model of JS `String.prototype.trim`: drop leading and trailing
whitespace. -/
def jsTrim (s : String) : String :=
  String.mk (((s.data.dropWhile isJsWhitespace).reverse.dropWhile isJsWhitespace).reverse)

/-- Model of JS `String.prototype.toLowerCase` (ASCII). -/
def jsToLowerCase (s : String) : String := String.mk (s.data.map Char.toLower)

/-- Model of JS `String.prototype.toUpperCase` (ASCII). -/
def jsToUpperCase (s : String) : String := String.mk (s.data.map Char.toUpper)

/-- Value of a decimal digit character, `none` for any other character. -/
def decDigitVal (c : Char) : Option ℕ :=
  if '0' ≤ c ∧ c ≤ '9' then some (c.toNat - 48) else none

/-- Value of a hexadecimal digit character, `none` for any other
character. -/
def hexDigitVal (c : Char) : Option ℕ :=
  if '0' ≤ c ∧ c ≤ '9' then some (c.toNat - 48)
  else if 'a' ≤ c ∧ c ≤ 'f' then some (c.toNat - 87)
  else if 'A' ≤ c ∧ c ≤ 'F' then some (c.toNat - 55)
  else none

/-- Value of the longest digit prefix of `cs` in the given base; `none`
when there is no digit at all (JS `parseInt` yields `NaN` then). -/
def digitPrefixVal (base : ℕ) (digitVal : Char → Option ℕ) (cs : List Char) : Option ℕ :=
  let ds := cs.takeWhile fun c => (digitVal c).isSome
  if ds.isEmpty then none
  else some (ds.foldl (fun acc c => acc * base + (digitVal c).getD 0) 0)

/-- Magnitude part of JS `parseInt` after sign processing: with no radix
argument (`allowHex = true`, as in server.js) a `0x`/`0X` prefix switches
to base 16; with radix 10 (`allowHex = false`, as in part_000) digits are
always decimal. -/
def jsParseIntMagnitude (allowHex : Bool) : List Char → Option ℕ
  | '0' :: 'x' :: rest => if allowHex then digitPrefixVal 16 hexDigitVal rest
      else digitPrefixVal 10 decDigitVal ('0' :: 'x' :: rest)
  | '0' :: 'X' :: rest => if allowHex then digitPrefixVal 16 hexDigitVal rest
      else digitPrefixVal 10 decDigitVal ('0' :: 'X' :: rest)
  | cs => digitPrefixVal 10 decDigitVal cs

/-- Model of JS `parseInt(s)` (`allowHex = true`) and `parseInt(s, 10)`
(`allowHex = false`): skip leading whitespace, read an optional sign, then
the longest digit prefix; `none` models `NaN`. -/
def jsParseInt (allowHex : Bool) (s : String) : Option ℤ :=
  match s.data.dropWhile isJsWhitespace with
  | '-' :: rest => (jsParseIntMagnitude allowHex rest).map fun n => -(n : ℤ)
  | '+' :: rest => (jsParseIntMagnitude allowHex rest).map fun n => (n : ℤ)
  | cs => (jsParseIntMagnitude allowHex cs).map fun n => (n : ℤ)


/-! ## Data model: the `WouldYouRatherQuestions` table and its operations.
The table is keyed by the integer primary key `id` (an identity column),
modelled as a partial map from ids to records; `nextId` is the next
identity value the store will generate. -/

/-- One row of `WouldYouRatherQuestions`, without its primary key. -/
structure QuestionRec where
  optionA_text : String
  optionB_text : String
  optionA_votes : ℕ
  optionB_votes : ℕ
  is_flagged : Bool
deriving DecidableEq

/-- The store: the question table plus the next identity value. -/
structure Store where
  table : ℤ → Option QuestionRec
  nextId : ℤ

/-- The outcomes the two handler variants surface to callers, following
the spec's error taxonomy (server.js distinguishes the invalid-option and
invalid-id messages; part_000's vote route reports one combined
invalid-input message). -/
inductive ApiError where
  | invalidOption
  | invalidId
  | invalidInput
  | invalidOptionText
  | duplicateOptions
  | notFound
  | storageFailure
deriving DecidableEq

/-- The two vote columns. -/
inductive VoteOption where
  | A
  | B
deriving DecidableEq

/-- The atomic vote increment shared by both variants (`UPDATE ... SET
<column> = <column> + 1 OUTPUT INSERTED.id, INSERTED.optionA_votes,
INSERTED.optionB_votes WHERE id = @id AND is_flagged = 0`): on the row
with the given id, if it exists and is unflagged, bump one column and
return the post-increment counts; otherwise return no row and leave the
store unchanged. -/
def sqlVoteUpdate (s : Store) (id : ℤ) (opt : VoteOption) :
    Option (ℤ × ℕ × ℕ) × Store :=
  match s.table id with
  | none => (none, s)
  | some q =>
    if q.is_flagged then (none, s)
    else
      let q' := match opt with
        | VoteOption.A => { q with optionA_votes := q.optionA_votes + 1 }
        | VoteOption.B => { q with optionB_votes := q.optionB_votes + 1 }
      (some (id, q'.optionA_votes, q'.optionB_votes),
        { s with table := fun n => if n = id then some q' else s.table n })

/-- The atomic flag transition shared by both variants (`UPDATE ... SET
is_flagged = 1 OUTPUT INSERTED.id WHERE id = @id AND is_flagged = 0`). -/
def sqlFlagUpdate (s : Store) (id : ℤ) : Option ℤ × Store :=
  match s.table id with
  | none => (none, s)
  | some q =>
    if q.is_flagged then (none, s)
    else
      (some id,
        { s with table := fun n =>
            if n = id then some { q with is_flagged := true } else s.table n })

/-- The insert shared by both variants (`INSERT ... OUTPUT INSERTED.id,
INSERTED.optionA_text, INSERTED.optionB_text VALUES (@optionA, @optionB)`),
creating a row with both counters at zero and `is_flagged` false under a
fresh identity value. Modelled from the spec: the `CK_DistinctOptions`
check constraint (the table schema is not part of the source) rejects the
insert when the two texts are case-insensitively equal, leaving the store
unchanged. -/
def sqlInsert (s : Store) (a b : String) :
    Except Unit (ℤ × String × String) × Store :=
  if jsToLowerCase a = jsToLowerCase b then (Except.error (), s)
  else
    let id := s.nextId
    (Except.ok (id, a, b),
      { table := fun n =>
          if n = id then
            some { optionA_text := a, optionB_text := b,
                   optionA_votes := 0, optionB_votes := 0, is_flagged := false }
          else s.table n,
        nextId := id + 1 })

/-- Whether the row with the given id is a candidate of the random
selection (`SELECT TOP 1 ... WHERE is_flagged = 0 ORDER BY NEWID()`):
it exists and is unflagged. -/
def isCandidate (s : Store) (id : ℤ) : Bool :=
  match s.table id with
  | some q => !q.is_flagged
  | none => false

/-- The state-changing operations of the system (random selection reads
but never writes, so it is the identity on the store). -/
inductive Op where
  | vote (id : ℤ) (opt : VoteOption)
  | flag (id : ℤ)
  | insert (a b : String)
  | pick
deriving DecidableEq

/-- Effect of one operation on the store. -/
def applyOp (s : Store) : Op → Store
  | Op.vote id opt => (sqlVoteUpdate s id opt).2
  | Op.flag id => (sqlFlagUpdate s id).2
  | Op.insert a b => (sqlInsert s a b).2
  | Op.pick => s

/-- Store well-formedness: every existing row's id lies below the next
identity value. This holds of every store the system can reach (rows are
only ever created by the insert, at the current identity value). -/
def goodStore (s : Store) : Prop :=
  ∀ n q, s.table n = some q → n < s.nextId

/-! ## Route handlers. Each handler takes the store and the raw request
parameters and returns the outcome together with the store after the
request. The mssql driver's coercion of a validated id string to `sql.Int`
is modelled by the `parseInt` value the handler validated. -/

/-- Success body of the vote endpoints. -/
structure VoteResponse where
  questionId : ℤ
  optionAVotes : ℤ
  optionBVotes : ℤ
  percentages : ℤ × ℤ
deriving DecidableEq

/-- Success body of the question endpoints. -/
structure QuestionResponse where
  id : ℤ
  optionA_text : String
  optionB_text : String
  optionA_votes : ℤ
  optionB_votes : ℤ
  optionA_percentage : ℤ
  optionB_percentage : ℤ
deriving DecidableEq

/-- server.js `POST /api/wyr/vote/:questionId/:option` (lines 182-243):
upper-case the option and reject anything but `A`/`B`, reject an id whose
`parseInt` is `NaN`, then run the conditional increment and answer with
the post-increment counts and percentages, or 404 when no row matched. -/
def serverVoteHandler (s : Store) (questionId option : String) :
    Except ApiError VoteResponse × Store :=
  let voteOption := jsToUpperCase option
  if voteOption ≠ "A" ∧ voteOption ≠ "B" then (Except.error ApiError.invalidOption, s)
  else
    match jsParseInt true questionId with
    | none => (Except.error ApiError.invalidId, s)
    | some id =>
      let opt := if voteOption = "A" then VoteOption.A else VoteOption.B
      match sqlVoteUpdate s id opt with
      | (none, s') => (Except.error ApiError.notFound, s')
      | (some (rid, av, bv), s') =>
        (Except.ok { questionId := rid, optionAVotes := av, optionBVotes := bv,
                     percentages := serverPercentages av bv }, s')

/-- server.js `POST /api/wyr/flag/:questionId` (lines 296-327): reject an
id whose `parseInt` is `NaN`, then run the conditional flag update. -/
def serverFlagHandler (s : Store) (questionId : String) :
    Except ApiError ℤ × Store :=
  match jsParseInt true questionId with
  | none => (Except.error ApiError.invalidId, s)
  | some id =>
    match sqlFlagUpdate s id with
    | (none, s') => (Except.error ApiError.notFound, s')
    | (some rid, s') => (Except.ok rid, s')

/-- server.js `POST /api/wyr/submit` (lines 246-293): a missing,
non-string, or whitespace-only option is rejected, then the length and
case-insensitive distinctness checks run on the trimmed texts, then the
insert; a `CK_DistinctOptions` constraint error from the store is
translated to the same identical-options rejection the validator uses. -/
def serverSubmitHandler (s : Store) (optionA optionB : Option String) :
    Except ApiError (ℤ × String × String) × Store :=
  match optionA, optionB with
  | some a, some b =>
    if jsTrim a = "" ∨ jsTrim b = "" then (Except.error ApiError.invalidOptionText, s)
    else if 500 < (jsTrim a).length ∨ 500 < (jsTrim b).length then
      (Except.error ApiError.invalidOptionText, s)
    else if jsToLowerCase (jsTrim a) = jsToLowerCase (jsTrim b) then
      (Except.error ApiError.duplicateOptions, s)
    else
      match sqlInsert s (jsTrim a) (jsTrim b) with
      | (Except.ok row, s') => (Except.ok row, s')
      | (Except.error _, s') => (Except.error ApiError.duplicateOptions, s')
  | _, _ => (Except.error ApiError.invalidOptionText, s)

/-- The constant question payload part_000's question handler answers with
(lines 156-164), regardless of the selected row. -/
def mockQuestionResponse : QuestionResponse :=
  { id := 1, optionA_text := "Be a famous movie star",
    optionB_text := "Be a famous singer", optionA_votes := 10,
    optionB_votes := 15, optionA_percentage := 40, optionB_percentage := 60 }

/-- The constant vote payload part_000's vote handler answers with
(lines 206-212), regardless of the updated counts. -/
def mockVoteResponse : VoteResponse :=
  { questionId := 1, optionAVotes := 11, optionBVotes := 15,
    percentages := (42, 58) }

/-- part_000 `GET /api/wyr/question` (lines 136-169), with the row picked
by `ORDER BY NEWID()` passed in as `selected`: when an unflagged row is
selected the handler computes its percentages but answers with the
hard-coded payload. -/
def part000QuestionHandler (s : Store) (selected : ℤ) :
    Except ApiError QuestionResponse :=
  match s.table selected with
  | none => Except.error ApiError.notFound
  | some question =>
    if question.is_flagged then Except.error ApiError.notFound
    else
      let percentages :=
        calculateVotePercentages question.optionA_votes question.optionB_votes
      Except.ok mockQuestionResponse

/-- part_000 `POST /api/wyr/vote/:questionId/:option` (lines 171-221):
one combined guard rejects a `NaN` or non-positive id and any option
other than `A`/`B`; on a matched row the handler computes the real
percentages but answers with the hard-coded payload. -/
def part000VoteHandler (s : Store) (questionIdStr option : String) :
    Except ApiError VoteResponse × Store :=
  let voteOption := jsToUpperCase option
  match jsParseInt false questionIdStr with
  | none => (Except.error ApiError.invalidInput, s)
  | some questionId =>
    if questionId ≤ 0 ∨ (voteOption ≠ "A" ∧ voteOption ≠ "B") then
      (Except.error ApiError.invalidInput, s)
    else
      let opt := if voteOption = "A" then VoteOption.A else VoteOption.B
      match sqlVoteUpdate s questionId opt with
      | (none, s') => (Except.error ApiError.notFound, s')
      | (some (_, av, bv), s') =>
        let percentages := calculateVotePercentages av bv
        (Except.ok mockVoteResponse, s')

/-- part_000 `POST /api/wyr/flag/:questionId` (lines 264-296): reject a
`NaN` or non-positive id, then run the conditional flag update. -/
def part000FlagHandler (s : Store) (questionIdStr : String) :
    Except ApiError ℤ × Store :=
  match jsParseInt false questionIdStr with
  | none => (Except.error ApiError.invalidId, s)
  | some questionId =>
    if questionId ≤ 0 then (Except.error ApiError.invalidId, s)
    else
      match sqlFlagUpdate s questionId with
      | (none, s') => (Except.error ApiError.notFound, s')
      | (some rid, s') => (Except.ok rid, s')

/-- part_000 `POST /api/wyr/submit` (lines 223-262): non-string options
become empty text, then the emptiness, length, and case-insensitive
distinctness checks run on the trimmed texts; a storage error surfaces as
a generic failure (part_000 does not translate constraint errors). -/
def part000SubmitHandler (s : Store) (optionA optionB : Option String) :
    Except ApiError (ℤ × String × String) × Store :=
  let textA := match optionA with | some a => jsTrim a | none => ""
  let textB := match optionB with | some b => jsTrim b | none => ""
  if textA = "" ∨ textB = "" then (Except.error ApiError.invalidOptionText, s)
  else if 500 < textA.length ∨ 500 < textB.length then
    (Except.error ApiError.invalidOptionText, s)
  else if jsToLowerCase textA = jsToLowerCase textB then
    (Except.error ApiError.duplicateOptions, s)
  else
    match sqlInsert s textA textB with
    | (Except.ok row, s') => (Except.ok row, s')
    | (Except.error _, s') => (Except.error ApiError.storageFailure, s')

/-! ## Concrete fixtures used by the closed witnesses. -/

/-- A store with no questions and the identity column at its seed. -/
def emptyStore : Store := { table := fun _ => none, nextId := 1 }

/-- An unflagged question with no votes. -/
def q0 : QuestionRec :=
  { optionA_text := "Cats", optionB_text := "Dogs",
    optionA_votes := 0, optionB_votes := 0, is_flagged := false }

/-- A flagged question. -/
def qFlagged : QuestionRec :=
  { optionA_text := "Tea", optionB_text := "Coffee",
    optionA_votes := 3, optionB_votes := 4, is_flagged := true }

/-- A store holding exactly the unflagged question `q0` at id 1. -/
def s0 : Store := { table := fun n => if n = 1 then some q0 else none, nextId := 2 }

/-- A store holding exactly the flagged question `qFlagged` at id 1. -/
def sFlagged : Store :=
  { table := fun n => if n = 1 then some qFlagged else none, nextId := 2 }


/-! ## Sanity evaluations and helper lemmas. -/

/-- Computational characterization of the rounded share: for a positive
total `d`, rounding `n / d * 100` half-up equals the natural-number
computation `(200 * n + d) / (2 * d)`. -/
lemma jsRound_div_eq (n d : ℕ) (hd : d ≠ 0) :
    jsRound ((n : ℚ) / (d : ℚ) * 100) = ((200 * n + d) / (2 * d) : ℕ) := by
  have hd' : (d : ℚ) ≠ 0 := Nat.cast_ne_zero.mpr hd
  have h1 : (n : ℚ) / (d : ℚ) * 100 + 1 / 2
      = (((200 * n + d : ℕ) : ℤ) : ℚ) / (((2 * d : ℕ)) : ℚ) := by
    push_cast
    field_simp
    ring
  rw [jsRound, h1, Rat.floor_intCast_div_natCast]
  exact (Int.natCast_div _ _).symm

/-- Evaluation form of `calculateVotePercentages` on a positive total,
with the rounding expressed by natural-number arithmetic. -/
lemma calculateVotePercentages_pos (a b : ℕ) (h : a + b ≠ 0) :
    calculateVotePercentages a b =
      ((((200 * a + (a + b)) / (2 * (a + b)) : ℕ) : ℤ),
        100 - (((200 * a + (a + b)) / (2 * (a + b)) : ℕ) : ℤ)) := by
  simp only [calculateVotePercentages]
  rw [if_neg h, jsRound_div_eq _ _ h]

/-- The inline server.js percentage computation agrees with part_000's
`calculateVotePercentages` on every pair of vote counts. -/
lemma serverPercentages_eq (a b : ℕ) :
    serverPercentages a b = calculateVotePercentages a b := by
  simp only [serverPercentages, calculateVotePercentages]
  by_cases h : a + b = 0
  · simp [h]
  · rw [if_neg h, if_neg h, if_neg h]
    have hpos : 0 < a + b := Nat.pos_of_ne_zero h
    split
    · rfl
    · next hcond =>
      rcases not_and_or.mp hcond with hc | hc
      · exact absurd hpos hc
      · have hsum : jsRound ((a : ℚ) / ((a + b : ℕ) : ℚ) * 100)
            + jsRound ((b : ℚ) / ((a + b : ℕ) : ℚ) * 100) = 100 :=
          not_not.mp hc
        refine Prod.ext rfl ?_
        dsimp only
        omega

example : calculateVotePercentages 1 2 = (33, 67) := by
  rw [calculateVotePercentages_pos 1 2 (by norm_num)]; norm_num
example : calculateVotePercentages 0 0 = (0, 0) := by
  simp [calculateVotePercentages]
example : calculateVotePercentages 1 0 = (100, 0) := by
  rw [calculateVotePercentages_pos 1 0 (by norm_num)]; norm_num
example : serverPercentages 1 8 = (11, 89) := by
  rw [serverPercentages_eq, calculateVotePercentages_pos 1 8 (by norm_num)]; norm_num

example : jsParseInt true "0" = some 0 := by decide
example : jsParseInt true "-5" = some (-5) := by decide
example : jsParseInt true "abc" = none := by decide
example : jsParseInt true "3abc" = some 3 := by decide
example : jsParseInt true " 42 " = some 42 := by decide
example : jsParseInt true "0x10" = some 16 := by decide
example : jsParseInt false "0x10" = some 0 := by decide
example : jsParseInt true "0x" = none := by decide
example : jsParseInt false "" = none := by decide
example : jsTrim "  pizza " = "pizza" := by decide
example : jsToLowerCase "Pizza" = "pizza" := by decide
example : jsToUpperCase "a" = "A" := by decide

/-! ## Characterization of the store operations by case. -/

lemma sqlVoteUpdate_none (s : Store) (id : ℤ) (opt : VoteOption)
    (h : s.table id = none) : sqlVoteUpdate s id opt = (none, s) := by
  simp [sqlVoteUpdate, h]

lemma sqlVoteUpdate_flagged (s : Store) (id : ℤ) (opt : VoteOption)
    (q : QuestionRec) (hq : s.table id = some q) (hf : q.is_flagged = true) :
    sqlVoteUpdate s id opt = (none, s) := by
  simp [sqlVoteUpdate, hq, hf]

lemma sqlVoteUpdate_ok_A (s : Store) (id : ℤ) (q : QuestionRec)
    (hq : s.table id = some q) (hf : q.is_flagged = false) :
    sqlVoteUpdate s id VoteOption.A =
      (some (id, q.optionA_votes + 1, q.optionB_votes),
        { s with table := fun n =>
            if n = id then some { q with optionA_votes := q.optionA_votes + 1 }
            else s.table n }) := by
  simp [sqlVoteUpdate, hq, hf]

lemma sqlVoteUpdate_ok_B (s : Store) (id : ℤ) (q : QuestionRec)
    (hq : s.table id = some q) (hf : q.is_flagged = false) :
    sqlVoteUpdate s id VoteOption.B =
      (some (id, q.optionA_votes, q.optionB_votes + 1),
        { s with table := fun n =>
            if n = id then some { q with optionB_votes := q.optionB_votes + 1 }
            else s.table n }) := by
  simp [sqlVoteUpdate, hq, hf]

lemma sqlFlagUpdate_none (s : Store) (id : ℤ)
    (h : s.table id = none) : sqlFlagUpdate s id = (none, s) := by
  simp [sqlFlagUpdate, h]

lemma sqlFlagUpdate_flagged (s : Store) (id : ℤ) (q : QuestionRec)
    (hq : s.table id = some q) (hf : q.is_flagged = true) :
    sqlFlagUpdate s id = (none, s) := by
  simp [sqlFlagUpdate, hq, hf]

lemma sqlFlagUpdate_ok (s : Store) (id : ℤ) (q : QuestionRec)
    (hq : s.table id = some q) (hf : q.is_flagged = false) :
    sqlFlagUpdate s id =
      (some id,
        { s with table := fun n =>
            if n = id then some { q with is_flagged := true } else s.table n }) := by
  simp [sqlFlagUpdate, hq, hf]

lemma sqlInsert_dup (s : Store) (a b : String)
    (h : jsToLowerCase a = jsToLowerCase b) :
    sqlInsert s a b = (Except.error (), s) := by
  simp [sqlInsert, h]

lemma sqlInsert_ok (s : Store) (a b : String)
    (h : jsToLowerCase a ≠ jsToLowerCase b) :
    sqlInsert s a b =
      (Except.ok (s.nextId, a, b),
        { table := fun n =>
            if n = s.nextId then
              some { optionA_text := a, optionB_text := b,
                     optionA_votes := 0, optionB_votes := 0, is_flagged := false }
            else s.table n,
          nextId := s.nextId + 1 }) := by
  simp [sqlInsert, h]

/-! ## Store invariants: well-formedness and the permanence of
`is_flagged`. -/

lemma goodStore_sqlVoteUpdate (s : Store) (id : ℤ) (opt : VoteOption)
    (h : goodStore s) : goodStore (sqlVoteUpdate s id opt).2 := by
  cases htab : s.table id with
  | none => rw [sqlVoteUpdate_none s id opt htab]; exact h
  | some q =>
    by_cases hf : q.is_flagged
    · rw [sqlVoteUpdate_flagged s id opt q htab hf]; exact h
    · have hf' : q.is_flagged = false := by simpa using hf
      intro n q' hn
      cases opt with
      | A =>
        rw [sqlVoteUpdate_ok_A s id q htab hf'] at hn
        dsimp only at hn ⊢
        rw [sqlVoteUpdate_ok_A s id q htab hf']
        by_cases hnid : n = id
        · subst hnid; exact h n q htab
        · rw [if_neg hnid] at hn; exact h n q' hn
      | B =>
        rw [sqlVoteUpdate_ok_B s id q htab hf'] at hn
        dsimp only at hn ⊢
        rw [sqlVoteUpdate_ok_B s id q htab hf']
        by_cases hnid : n = id
        · subst hnid; exact h n q htab
        · rw [if_neg hnid] at hn; exact h n q' hn

lemma goodStore_sqlFlagUpdate (s : Store) (id : ℤ)
    (h : goodStore s) : goodStore (sqlFlagUpdate s id).2 := by
  cases htab : s.table id with
  | none => rw [sqlFlagUpdate_none s id htab]; exact h
  | some q =>
    by_cases hf : q.is_flagged
    · rw [sqlFlagUpdate_flagged s id q htab hf]; exact h
    · have hf' : q.is_flagged = false := by simpa using hf
      intro n q' hn
      rw [sqlFlagUpdate_ok s id q htab hf'] at hn ⊢
      dsimp only at hn ⊢
      by_cases hnid : n = id
      · subst hnid; exact h n q htab
      · rw [if_neg hnid] at hn; exact h n q' hn

lemma goodStore_sqlInsert (s : Store) (a b : String)
    (h : goodStore s) : goodStore (sqlInsert s a b).2 := by
  by_cases hdup : jsToLowerCase a = jsToLowerCase b
  · rw [sqlInsert_dup s a b hdup]; exact h
  · intro n q' hn
    rw [sqlInsert_ok s a b hdup] at hn ⊢
    dsimp only at hn ⊢
    by_cases hnid : n = s.nextId
    · omega
    · rw [if_neg hnid] at hn
      have := h n q' hn
      omega

/-- Well-formedness is preserved by every operation of the system. -/
lemma goodStore_applyOp (s : Store) (op : Op) (h : goodStore s) :
    goodStore (applyOp s op) := by
  cases op with
  | vote id opt => exact goodStore_sqlVoteUpdate s id opt h
  | flag id => exact goodStore_sqlFlagUpdate s id h
  | insert a b => exact goodStore_sqlInsert s a b h
  | pick => exact h

/-- A flagged row is untouched by every operation of the system. -/
lemma flagged_row_stable (s : Store) (op : Op) (id : ℤ) (q : QuestionRec)
    (hg : goodStore s) (hq : s.table id = some q) (hf : q.is_flagged = true) :
    (applyOp s op).table id = some q := by
  cases op with
  | pick => exact hq
  | vote vid vopt =>
    show (sqlVoteUpdate s vid vopt).2.table id = some q
    cases htab : s.table vid with
    | none => rw [sqlVoteUpdate_none s vid vopt htab]; exact hq
    | some p =>
      by_cases hpf : p.is_flagged
      · rw [sqlVoteUpdate_flagged s vid vopt p htab hpf]; exact hq
      · have hpf' : p.is_flagged = false := by simpa using hpf
        have hid : id ≠ vid := by
          intro hcontra
          subst hcontra
          rw [hq] at htab
          cases htab
          rw [hf] at hpf'
          exact absurd hpf' (by simp)
        cases vopt with
        | A =>
          rw [sqlVoteUpdate_ok_A s vid p htab hpf']
          dsimp only
          rw [if_neg hid]; exact hq
        | B =>
          rw [sqlVoteUpdate_ok_B s vid p htab hpf']
          dsimp only
          rw [if_neg hid]; exact hq
  | flag fid =>
    show (sqlFlagUpdate s fid).2.table id = some q
    cases htab : s.table fid with
    | none => rw [sqlFlagUpdate_none s fid htab]; exact hq
    | some p =>
      by_cases hpf : p.is_flagged
      · rw [sqlFlagUpdate_flagged s fid p htab hpf]; exact hq
      · have hpf' : p.is_flagged = false := by simpa using hpf
        have hid : id ≠ fid := by
          intro hcontra
          subst hcontra
          rw [hq] at htab
          cases htab
          rw [hf] at hpf'
          exact absurd hpf' (by simp)
        rw [sqlFlagUpdate_ok s fid p htab hpf']
        dsimp only
        rw [if_neg hid]; exact hq
  | insert a b =>
    show (sqlInsert s a b).2.table id = some q
    by_cases hdup : jsToLowerCase a = jsToLowerCase b
    · rw [sqlInsert_dup s a b hdup]; exact hq
    · rw [sqlInsert_ok s a b hdup]
      dsimp only
      have hlt : id < s.nextId := hg id q hq
      rw [if_neg (by omega : ¬id = s.nextId)]
      exact hq

/-- A flagged row is untouched by every sequence of operations. -/
lemma flagged_row_stable_foldl (ops : List Op) (s : Store) (id : ℤ)
    (q : QuestionRec) (hg : goodStore s) (hq : s.table id = some q)
    (hf : q.is_flagged = true) :
    goodStore (ops.foldl applyOp s) ∧ (ops.foldl applyOp s).table id = some q := by
  induction ops generalizing s with
  | nil => exact ⟨hg, hq⟩
  | cons op rest ih =>
    rw [List.foldl_cons]
    exact ih (applyOp s op) (goodStore_applyOp s op hg)
      (flagged_row_stable s op id q hg hq hf)

/-- Inversion of a successful flag update. -/
lemma sqlFlagUpdate_success (s : Store) (id r : ℤ) (s₁ : Store)
    (h : sqlFlagUpdate s id = (some r, s₁)) :
    ∃ q, s.table id = some q ∧ q.is_flagged = false ∧
      s₁ = { s with table := fun n =>
        if n = id then some { q with is_flagged := true } else s.table n } := by
  cases htab : s.table id with
  | none => rw [sqlFlagUpdate_none s id htab] at h; simp at h
  | some q =>
    by_cases hpf : q.is_flagged
    · rw [sqlFlagUpdate_flagged s id q htab hpf] at h; simp at h
    · have hpf' : q.is_flagged = false := by simpa using hpf
      rw [sqlFlagUpdate_ok s id q htab hpf'] at h
      exact ⟨q, rfl, hpf', ((Prod.mk.injEq _ _ _ _).mp h).2.symm⟩

/-! ## Claim theorems. -/

/-- C2: a vote on an existing, unflagged question increments exactly the
chosen counter by exactly 1, leaves the other counter, both option texts
and `is_flagged` unchanged, and returns the post-increment counts. -/
theorem vote_increments_exactly_one (s : Store) (id : ℤ) (q : QuestionRec)
    (opt : VoteOption) (hq : s.table id = some q) (hf : q.is_flagged = false) :
    ∃ q', (sqlVoteUpdate s id opt).2.table id = some q' ∧
      (sqlVoteUpdate s id opt).1 = some (id, q'.optionA_votes, q'.optionB_votes) ∧
      (opt = VoteOption.A →
        q'.optionA_votes = q.optionA_votes + 1 ∧ q'.optionB_votes = q.optionB_votes) ∧
      (opt = VoteOption.B →
        q'.optionB_votes = q.optionB_votes + 1 ∧ q'.optionA_votes = q.optionA_votes) ∧
      q'.optionA_text = q.optionA_text ∧ q'.optionB_text = q.optionB_text ∧
      q'.is_flagged = q.is_flagged := by
  cases opt with
  | A =>
    refine ⟨{ q with optionA_votes := q.optionA_votes + 1 }, ?_, ?_, ?_, ?_, rfl, rfl, rfl⟩
    · rw [sqlVoteUpdate_ok_A s id q hq hf]; simp
    · rw [sqlVoteUpdate_ok_A s id q hq hf]
    · exact fun _ => ⟨rfl, rfl⟩
    · intro hcontra; cases hcontra
  | B =>
    refine ⟨{ q with optionB_votes := q.optionB_votes + 1 }, ?_, ?_, ?_, ?_, rfl, rfl, rfl⟩
    · rw [sqlVoteUpdate_ok_B s id q hq hf]; simp
    · rw [sqlVoteUpdate_ok_B s id q hq hf]
    · intro hcontra; cases hcontra
    · exact fun _ => ⟨rfl, rfl⟩

/-- Closed witness for `vote_increments_exactly_one` at the concrete store
`s0` holding the unflagged question `q0` at id 1. -/
theorem vote_increments_exactly_one_witness :
    ∃ q', (sqlVoteUpdate s0 1 VoteOption.A).2.table 1 = some q' ∧
      (sqlVoteUpdate s0 1 VoteOption.A).1 =
        some (1, q'.optionA_votes, q'.optionB_votes) ∧
      (VoteOption.A = VoteOption.A →
        q'.optionA_votes = q0.optionA_votes + 1 ∧ q'.optionB_votes = q0.optionB_votes) ∧
      (VoteOption.A = VoteOption.B →
        q'.optionB_votes = q0.optionB_votes + 1 ∧ q'.optionA_votes = q0.optionA_votes) ∧
      q'.optionA_text = q0.optionA_text ∧ q'.optionB_text = q0.optionB_text ∧
      q'.is_flagged = q0.is_flagged :=
  vote_increments_exactly_one s0 1 q0 VoteOption.A rfl rfl

/-- C3: once a flag update has succeeded on an id, the row at that id is a
fixed flagged record forever: after any further sequence of operations the
row is unchanged and a second flag update on the id returns no row and
leaves the store exactly as it was. -/
theorem flag_at_most_once (s : Store) (id r : ℤ) (s₁ : Store) (ops : List Op)
    (hg : goodStore s) (h : sqlFlagUpdate s id = (some r, s₁)) :
    ∃ q₁, s₁.table id = some q₁ ∧ q₁.is_flagged = true ∧
      (ops.foldl applyOp s₁).table id = some q₁ ∧
      sqlFlagUpdate (ops.foldl applyOp s₁) id = (none, ops.foldl applyOp s₁) := by
  obtain ⟨q, hq, hqf, hs₁⟩ := sqlFlagUpdate_success s id r s₁ h
  have hg₁ : goodStore s₁ := by
    have := goodStore_sqlFlagUpdate s id hg
    rw [h] at this
    exact this
  have hq₁ : s₁.table id = some { q with is_flagged := true } := by
    rw [hs₁]; simp
  obtain ⟨hgood, hstable⟩ :=
    flagged_row_stable_foldl ops s₁ id { q with is_flagged := true } hg₁ hq₁ rfl
  exact ⟨{ q with is_flagged := true }, hq₁, rfl, hstable,
    sqlFlagUpdate_flagged _ id { q with is_flagged := true } hstable rfl⟩

/-- Closed witness for `flag_at_most_once`: flag question 1 of `s0`,
then run a vote, an insert, a second flag and a read; the row stays the
flagged record and the second flag fails without changing the store. -/
theorem flag_at_most_once_witness :
    ∃ q₁, (sqlFlagUpdate s0 1).2.table 1 = some q₁ ∧ q₁.is_flagged = true ∧
      (([Op.vote 1 VoteOption.A, Op.insert "Tea" "Coffee", Op.flag 1,
          Op.pick].foldl applyOp (sqlFlagUpdate s0 1).2)).table 1 = some q₁ ∧
      sqlFlagUpdate
          ([Op.vote 1 VoteOption.A, Op.insert "Tea" "Coffee", Op.flag 1,
            Op.pick].foldl applyOp (sqlFlagUpdate s0 1).2) 1 =
        (none,
          [Op.vote 1 VoteOption.A, Op.insert "Tea" "Coffee", Op.flag 1,
            Op.pick].foldl applyOp (sqlFlagUpdate s0 1).2) :=
  flag_at_most_once s0 1 1 (sqlFlagUpdate s0 1).2
    [Op.vote 1 VoteOption.A, Op.insert "Tea" "Coffee", Op.flag 1, Op.pick]
    (by
      intro n q h
      by_cases hn : n = (1 : ℤ)
      · subst hn; norm_num [s0]
      · simp [s0, hn] at h)
    rfl

/-- C4: a flagged question is never a candidate of random selection, and a
vote on its id returns no row and leaves the store unchanged. -/
theorem flagged_excluded (s : Store) (id : ℤ) (q : QuestionRec)
    (opt : VoteOption) (hq : s.table id = some q) (hf : q.is_flagged = true) :
    isCandidate s id = false ∧ sqlVoteUpdate s id opt = (none, s) :=
  ⟨by simp [isCandidate, hq, hf], sqlVoteUpdate_flagged s id opt q hq hf⟩

/-- Closed witness for `flagged_excluded` at the concrete store `sFlagged`
holding the flagged question `qFlagged` at id 1. -/
theorem flagged_excluded_witness :
    isCandidate sFlagged 1 = false ∧
    sqlVoteUpdate sFlagged 1 VoteOption.A = (none, sFlagged) :=
  flagged_excluded sFlagged 1 qFlagged VoteOption.A rfl rfl

/-- C1: in both variants, the percentage pair sums to exactly 100 whenever
the vote total is positive, and is `(0, 0)` whenever the total is zero. -/
theorem percentages_sum_to_100 (a b : ℕ) :
    (0 < a + b →
      (calculateVotePercentages a b).1 + (calculateVotePercentages a b).2 = 100 ∧
      (serverPercentages a b).1 + (serverPercentages a b).2 = 100) ∧
    (a + b = 0 →
      calculateVotePercentages a b = (0, 0) ∧ serverPercentages a b = (0, 0)) := by
  constructor
  · intro h
    have hne : a + b ≠ 0 := Nat.pos_iff_ne_zero.mp h
    have hcalc :
        (calculateVotePercentages a b).1 + (calculateVotePercentages a b).2 = 100 := by
      simp only [calculateVotePercentages]
      rw [if_neg hne]
      dsimp only
      ring
    exact ⟨hcalc, by rw [serverPercentages_eq]; exact hcalc⟩
  · intro h
    constructor
    · simp [calculateVotePercentages, h]
    · rw [serverPercentages_eq]; simp [calculateVotePercentages, h]

/-- Closed witness for `percentages_sum_to_100` at the vote counts (1, 2)
and (0, 0). -/
theorem percentages_sum_to_100_witness :
    ((calculateVotePercentages 1 2).1 + (calculateVotePercentages 1 2).2 = 100 ∧
      (serverPercentages 1 2).1 + (serverPercentages 1 2).2 = 100) ∧
    (calculateVotePercentages 0 0 = (0, 0) ∧ serverPercentages 0 0 = (0, 0)) :=
  ⟨(percentages_sum_to_100 1 2).1 (by norm_num),
    (percentages_sum_to_100 0 0).2 rfl⟩

/-- C5: on a positive total, both variants return as first component the
share `votesA / total * 100` rounded half-up (Mathlib's `round`, which
rounds ties up), and as second component exactly `100` minus that rounded
first component — never an independently rounded value. -/
theorem percentage_rounding_half_up (a b : ℕ) (h : 0 < a + b) :
    calculateVotePercentages a b =
      (round ((a : ℚ) / ((a + b : ℕ) : ℚ) * 100),
        100 - round ((a : ℚ) / ((a + b : ℕ) : ℚ) * 100)) ∧
    serverPercentages a b =
      (round ((a : ℚ) / ((a + b : ℕ) : ℚ) * 100),
        100 - round ((a : ℚ) / ((a + b : ℕ) : ℚ) * 100)) := by
  have hne : a + b ≠ 0 := Nat.pos_iff_ne_zero.mp h
  have hround : round ((a : ℚ) / ((a + b : ℕ) : ℚ) * 100)
      = jsRound ((a : ℚ) / ((a + b : ℕ) : ℚ) * 100) := by
    rw [round_eq, jsRound]
  have hcalc : calculateVotePercentages a b =
      (round ((a : ℚ) / ((a + b : ℕ) : ℚ) * 100),
        100 - round ((a : ℚ) / ((a + b : ℕ) : ℚ) * 100)) := by
    simp only [calculateVotePercentages]
    rw [if_neg hne, hround]
  exact ⟨hcalc, by rw [serverPercentages_eq]; exact hcalc⟩

/-- Closed witness for `percentage_rounding_half_up` at the vote counts
(1, 2): the rounded share of 100/3 is 33 and the complement is 67. -/
theorem percentage_rounding_half_up_witness :
    0 < 1 + 2 ∧ calculateVotePercentages 1 2 = (33, 67) ∧
      serverPercentages 1 2 = (33, 67) := by
  have h := percentage_rounding_half_up 1 2 (by norm_num)
  have h2 : calculateVotePercentages 1 2 = (33, 67) := by
    rw [calculateVotePercentages_pos 1 2 (by norm_num)]; norm_num
  refine ⟨by norm_num, h2, ?_⟩
  rw [h.2, ← h.1, h2]

/-- C10: the inline server.js percentage computation (independent rounding
plus the sum-to-100 adjustment) returns exactly the same pair as part_000's
`calculateVotePercentages` on every pair of vote counts. -/
theorem server_percentages_refines_calculate (votesA votesB : ℕ) :
    serverPercentages votesA votesB = calculateVotePercentages votesA votesB :=
  serverPercentages_eq votesA votesB

/-- C6 (amended): part_000 rejects a vote/flag id with a validation error,
before any storage call, exactly when it does not parse (radix 10) as a
positive integer; server.js rejects with its invalid-id error exactly when
`parseInt` is `NaN`, so zero and negative ids pass its validation and
surface as storage-level not-found results. -/
theorem id_validation_amended (s : Store) (idStr optStr : String) :
    (((part000FlagHandler s idStr).1 = Except.error ApiError.invalidId ∧
        (part000FlagHandler s idStr).2 = s) ↔
      ¬∃ n : ℤ, jsParseInt false idStr = some n ∧ 0 < n) ∧
    (((serverFlagHandler s idStr).1 = Except.error ApiError.invalidId ∧
        (serverFlagHandler s idStr).2 = s) ↔
      jsParseInt true idStr = none) ∧
    ((jsToUpperCase optStr = "A" ∨ jsToUpperCase optStr = "B") →
      (((serverVoteHandler s idStr optStr).1 = Except.error ApiError.invalidId ∧
          (serverVoteHandler s idStr optStr).2 = s) ↔
        jsParseInt true idStr = none)) ∧
    ((jsToUpperCase optStr = "A" ∨ jsToUpperCase optStr = "B") →
      (((part000VoteHandler s idStr optStr).1 = Except.error ApiError.invalidInput ∧
          (part000VoteHandler s idStr optStr).2 = s) ↔
        ¬∃ n : ℤ, jsParseInt false idStr = some n ∧ 0 < n)) := by
  refine ⟨?_, ?_, ?_, ?_⟩
  · simp only [part000FlagHandler]
    rcases hp : jsParseInt false idStr with _ | n
    · simp
    · dsimp only
      by_cases hn : n ≤ 0
      · rw [if_pos hn]
        simp
        omega
      · rw [if_neg hn]
        rcases hup : sqlFlagUpdate s n with ⟨res, s'⟩
        cases res with
        | none => simp; omega
        | some rid => simp; omega
  · simp only [serverFlagHandler]
    rcases hp : jsParseInt true idStr with _ | n
    · simp
    · dsimp only
      rcases hup : sqlFlagUpdate s n with ⟨res, s'⟩
      cases res with
      | none => simp
      | some rid => simp
  · intro hopt
    have hguard : ¬(jsToUpperCase optStr ≠ "A" ∧ jsToUpperCase optStr ≠ "B") := by
      tauto
    simp only [serverVoteHandler]
    rw [if_neg hguard]
    rcases hp : jsParseInt true idStr with _ | n
    · simp
    · dsimp only
      rcases hup : sqlVoteUpdate s n
          (if jsToUpperCase optStr = "A" then VoteOption.A else VoteOption.B)
        with ⟨res, s'⟩
      cases res with
      | none => simp
      | some row =>
        rcases row with ⟨rid, av, bv⟩
        simp
  · intro hopt
    simp only [part000VoteHandler]
    rcases hp : jsParseInt false idStr with _ | n
    · simp
    · dsimp only
      by_cases hn : n ≤ 0
      · rw [if_pos (Or.inl hn)]
        simp
        omega
      · have hguard : ¬(n ≤ 0 ∨ (jsToUpperCase optStr ≠ "A" ∧ jsToUpperCase optStr ≠ "B")) := by
          tauto
        rw [if_neg hguard]
        rcases hup : sqlVoteUpdate s n
            (if jsToUpperCase optStr = "A" then VoteOption.A else VoteOption.B)
          with ⟨res, s'⟩
        cases res with
        | none => simp; omega
        | some row =>
          rcases row with ⟨rid, av, bv⟩
          simp
          omega

/-- Closed witness for `id_validation_amended` at the id string "0" and
option "A" over the empty store. -/
theorem id_validation_amended_witness :
    (((part000FlagHandler emptyStore "0").1 = Except.error ApiError.invalidId ∧
        (part000FlagHandler emptyStore "0").2 = emptyStore) ↔
      ¬∃ n : ℤ, jsParseInt false "0" = some n ∧ 0 < n) ∧
    (((serverFlagHandler emptyStore "0").1 = Except.error ApiError.invalidId ∧
        (serverFlagHandler emptyStore "0").2 = emptyStore) ↔
      jsParseInt true "0" = none) ∧
    (((serverVoteHandler emptyStore "0" "A").1 = Except.error ApiError.invalidId ∧
        (serverVoteHandler emptyStore "0" "A").2 = emptyStore) ↔
      jsParseInt true "0" = none) ∧
    (((part000VoteHandler emptyStore "0" "A").1 = Except.error ApiError.invalidInput ∧
        (part000VoteHandler emptyStore "0" "A").2 = emptyStore) ↔
      ¬∃ n : ℤ, jsParseInt false "0" = some n ∧ 0 < n) :=
  ⟨(id_validation_amended emptyStore "0" "A").1,
    (id_validation_amended emptyStore "0" "A").2.1,
    (id_validation_amended emptyStore "0" "A").2.2.1 (by decide),
    (id_validation_amended emptyStore "0" "A").2.2.2 (by decide)⟩

/-- C6 counterexample: in server.js, the id strings "0" and "-3" pass the
`isNaN(parseInt(...))` validation even though they do not parse as positive
integers, reach the storage query, and come back as storage-level not-found
results — not as the invalid-id validation error the claim requires. -/
theorem server_id_validation_counterexample :
    (serverFlagHandler emptyStore "0").1 = Except.error ApiError.notFound ∧
    (serverVoteHandler emptyStore "0" "A").1 = Except.error ApiError.notFound ∧
    (serverFlagHandler emptyStore "-3").1 = Except.error ApiError.notFound ∧
    (serverFlagHandler emptyStore "0").1 ≠ Except.error ApiError.invalidId ∧
    (serverVoteHandler emptyStore "0" "A").1 ≠ Except.error ApiError.invalidId ∧
    (serverFlagHandler emptyStore "-3").1 ≠ Except.error ApiError.invalidId := by
  refine ⟨rfl, rfl, rfl, ?_, ?_, ?_⟩ <;> intro h <;> cases h

/-- C8: the vote option is accepted exactly when its upper-casing is "A"
or "B"; otherwise server.js rejects with its invalid-option error and
part_000 (for an id that passes its id checks) with its combined
invalid-input error, in both cases before any storage call (the store is
returned unchanged). -/
theorem vote_option_validation (s : Store) (idStr optStr : String) :
    (((serverVoteHandler s idStr optStr).1 = Except.error ApiError.invalidOption ∧
        (serverVoteHandler s idStr optStr).2 = s) ↔
      ¬(jsToUpperCase optStr = "A" ∨ jsToUpperCase optStr = "B")) ∧
    (∀ n : ℤ, jsParseInt false idStr = some n → 0 < n →
      (((part000VoteHandler s idStr optStr).1 = Except.error ApiError.invalidInput ∧
          (part000VoteHandler s idStr optStr).2 = s) ↔
        ¬(jsToUpperCase optStr = "A" ∨ jsToUpperCase optStr = "B"))) := by
  constructor
  · by_cases hopt : jsToUpperCase optStr ≠ "A" ∧ jsToUpperCase optStr ≠ "B"
    · simp only [serverVoteHandler]
      rw [if_pos hopt]
      simp
      tauto
    · have hopt' : jsToUpperCase optStr = "A" ∨ jsToUpperCase optStr = "B" := by
        tauto
      simp only [serverVoteHandler]
      rw [if_neg hopt]
      rcases hp : jsParseInt true idStr with _ | n
      · simp
        tauto
      · dsimp only
        rcases hup : sqlVoteUpdate s n
            (if jsToUpperCase optStr = "A" then VoteOption.A else VoteOption.B)
          with ⟨res, s'⟩
        cases res with
        | none => simp; tauto
        | some row =>
          rcases row with ⟨rid, av, bv⟩
          simp
          tauto
  · intro n hp hn
    simp only [part000VoteHandler]
    rw [hp]
    dsimp only
    by_cases hopt : jsToUpperCase optStr ≠ "A" ∧ jsToUpperCase optStr ≠ "B"
    · rw [if_pos (Or.inr hopt)]
      simp
      tauto
    · have hguard : ¬(n ≤ 0 ∨ (jsToUpperCase optStr ≠ "A" ∧ jsToUpperCase optStr ≠ "B")) := by
        push_neg
        exact ⟨by omega, fun hA => by tauto⟩
      rw [if_neg hguard]
      rcases hup : sqlVoteUpdate s n
          (if jsToUpperCase optStr = "A" then VoteOption.A else VoteOption.B)
        with ⟨res, s'⟩
      cases res with
      | none => simp; tauto
      | some row =>
        rcases row with ⟨rid, av, bv⟩
        simp
        tauto

/-- Closed witness for `vote_option_validation` at the option string "c"
(rejected) and the id string "1" over the empty store. -/
theorem vote_option_validation_witness :
    (((serverVoteHandler emptyStore "1" "c").1 = Except.error ApiError.invalidOption ∧
        (serverVoteHandler emptyStore "1" "c").2 = emptyStore) ↔
      ¬(jsToUpperCase "c" = "A" ∨ jsToUpperCase "c" = "B")) ∧
    (((part000VoteHandler emptyStore "1" "c").1 = Except.error ApiError.invalidInput ∧
        (part000VoteHandler emptyStore "1" "c").2 = emptyStore) ↔
      ¬(jsToUpperCase "c" = "A" ∨ jsToUpperCase "c" = "B")) :=
  ⟨(vote_option_validation emptyStore "1" "c").1,
    (vote_option_validation emptyStore "1" "c").2 1 (by decide) (by decide)⟩

/-- C7 (amended): a submission whose two trimmed texts are non-empty,
within the 500-character limit, and case-insensitively equal is rejected
by both variants with the duplicate-options error before any storage call,
and no record is created. (Submissions whose equal trimmed texts are empty
or over-long are caught earlier by the emptiness/length checks instead.) -/
theorem duplicate_options_amended (s : Store) (a b : String)
    (ha : jsTrim a ≠ "") (hb : jsTrim b ≠ "")
    (hla : (jsTrim a).length ≤ 500) (hlb : (jsTrim b).length ≤ 500)
    (hdup : jsToLowerCase (jsTrim a) = jsToLowerCase (jsTrim b)) :
    serverSubmitHandler s (some a) (some b) =
      (Except.error ApiError.duplicateOptions, s) ∧
    part000SubmitHandler s (some a) (some b) =
      (Except.error ApiError.duplicateOptions, s) := by
  have hempty : ¬(jsTrim a = "" ∨ jsTrim b = "") := by tauto
  have hlen : ¬(500 < (jsTrim a).length ∨ 500 < (jsTrim b).length) := by
    push_neg
    exact ⟨hla, hlb⟩
  constructor
  · simp only [serverSubmitHandler]
    rw [if_neg hempty, if_neg hlen, if_pos hdup]
  · simp only [part000SubmitHandler]
    rw [if_neg hempty, if_neg hlen, if_pos hdup]

/-- Closed witness for `duplicate_options_amended` at the submission
("Pizza", " pizza "): valid texts which are case-insensitively equal after
trimming. -/
theorem duplicate_options_amended_witness :
    serverSubmitHandler emptyStore (some "Pizza") (some " pizza ") =
      (Except.error ApiError.duplicateOptions, emptyStore) ∧
    part000SubmitHandler emptyStore (some "Pizza") (some " pizza ") =
      (Except.error ApiError.duplicateOptions, emptyStore) :=
  duplicate_options_amended emptyStore "Pizza" " pizza "
    (by decide) (by decide) (by decide) (by decide) (by decide)

/-- C7 counterexample: the submission (" ", " ") has case-insensitively
equal trimmed texts (both empty), yet both variants reject it with the
invalid-option-text error, not the duplicate-options error the claim
requires for every such submission. -/
theorem duplicate_options_counterexample :
    jsToLowerCase (jsTrim " ") = jsToLowerCase (jsTrim " ") ∧
    (serverSubmitHandler emptyStore (some " ") (some " ")).1 =
      Except.error ApiError.invalidOptionText ∧
    (part000SubmitHandler emptyStore (some " ") (some " ")).1 =
      Except.error ApiError.invalidOptionText ∧
    (serverSubmitHandler emptyStore (some " ") (some " ")).1 ≠
      Except.error ApiError.duplicateOptions ∧
    (part000SubmitHandler emptyStore (some " ") (some " ")).1 ≠
      Except.error ApiError.duplicateOptions := by
  refine ⟨rfl, rfl, rfl, ?_, ?_⟩ <;> intro h <;> cases h

/-- C9: in part_000, the success bodies of the question and vote endpoints
are the hard-coded payloads `mockQuestionResponse` and `mockVoteResponse`,
whatever the store, the selected row, and the updated counts are; any two
successful responses are therefore identical. -/
theorem mock_responses_constant :
    (∀ (s : Store) (sel : ℤ) (r : QuestionResponse),
      part000QuestionHandler s sel = Except.ok r → r = mockQuestionResponse) ∧
    (∀ (s : Store) (idStr optStr : String) (v : VoteResponse),
      (part000VoteHandler s idStr optStr).1 = Except.ok v → v = mockVoteResponse) := by
  constructor
  · intro s sel r h
    simp only [part000QuestionHandler] at h
    rcases htab : s.table sel with _ | q
    · rw [htab] at h; cases h
    · rw [htab] at h
      dsimp only at h
      by_cases hf : q.is_flagged
      · rw [if_pos hf] at h; cases h
      · rw [if_neg hf] at h
        exact (Except.ok.inj h).symm
  · intro s idStr optStr v h
    simp only [part000VoteHandler] at h
    rcases hp : jsParseInt false idStr with _ | n
    · rw [hp] at h; cases h
    · rw [hp] at h
      dsimp only at h
      by_cases hguard : n ≤ 0 ∨ (jsToUpperCase optStr ≠ "A" ∧ jsToUpperCase optStr ≠ "B")
      · rw [if_pos hguard] at h; cases h
      · rw [if_neg hguard] at h
        rcases hup : sqlVoteUpdate s n
            (if jsToUpperCase optStr = "A" then VoteOption.A else VoteOption.B)
          with ⟨res, s'⟩
        rw [hup] at h
        cases res with
        | none => cases h
        | some row =>
          rcases row with ⟨rid, av, bv⟩
          exact (Except.ok.inj h).symm

/-- Closed witness for `mock_responses_constant`: the payloads produced on
the concrete store `s0` are exactly the hard-coded constants. -/
theorem mock_responses_constant_witness :
    ({ id := 1, optionA_text := "Be a famous movie star",
       optionB_text := "Be a famous singer", optionA_votes := 10,
       optionB_votes := 15, optionA_percentage := 40,
       optionB_percentage := 60 } : QuestionResponse) = mockQuestionResponse ∧
    ({ questionId := 1, optionAVotes := 11, optionBVotes := 15,
       percentages := (42, 58) } : VoteResponse) = mockVoteResponse :=
  ⟨mock_responses_constant.1 s0 1 _ rfl,
    mock_responses_constant.2 s0 "1" "a" _ rfl⟩
